import Mathlib

/-!
knot-babeltower: thing interactors

A shallow embedding of `pkg/thing/interactors` (update_schema.go, request_data.go,
unregister_thing.go): the schema rule table and validator, and the three command
orchestrators `UpdateSchema`, `RequestData` and `Unregister`.

Conventions of the embedding

* Go `int` values are only compared, never computed with, so they are `Int`.
* A Go slice that may be `nil` is an `Option (List _)`: `none` is the nil slice,
  `some []` the empty non-nil slice.
* A Go `error` that may be `nil` is an `Option error`.
* The registry proxy and the two publishers are interfaces; they are records of
  functions from the arguments of a call to its result.  Every orchestrator calls
  each of their methods at most once per run, so a function of the arguments
  describes every possible run.  Each orchestrator returns its result together
  with the ordered list of the proxy and publisher calls it made.
* Calls to the logger return nothing and decide nothing; they are kept as comments
  at the place where the source makes them.
-/

namespace Babeltower

/-! ## Data model -/

/-- Schema is `entities.Schema`: one sensor or actuator channel of a thing. -/
structure Schema where
  SensorID : Int
  ValueType : Int
  Unit : Int
  TypeID : Int
  Name : String
deriving DecidableEq, Repr

/-- Thing is `entities.Thing`, restricted to the fields the interactors read. -/
structure Thing where
  ID : String
  Schema : Option (List Schema)
deriving DecidableEq, Repr

/-- The struct `interval` of update_schema.go. -/
structure interval where
  min : Int
  max : Int
deriving DecidableEq, Repr

/-- The dynamic value held by an `interface{}` field of `schemaType`: the source
stores either an `int` or an `interval` there. -/
inductive ruleValue where
  | int (value : Int)
  | interval (value : interval)
deriving DecidableEq, Repr

/-- The struct `schemaType`; `none` is the nil interface value. -/
structure schemaType where
  valueType : Option ruleValue
  unit : Option ruleValue
deriving DecidableEq, Repr

/-- The table `rules` of update_schema.go, key by key. -/
def rules : List (Int × schemaType) :=
  [ (0x0000, ⟨some (.int 4), some (.int 0)⟩),
    (0x0001, ⟨some (.int 1), some (.interval ⟨1, 3⟩)⟩),
    (0x0002, ⟨some (.int 1), some (.interval ⟨1, 2⟩)⟩),
    (0x0003, ⟨some (.int 1), some (.int 1)⟩),
    (0x0004, ⟨some (.int 1), some (.interval ⟨1, 3⟩)⟩),
    (0x0005, ⟨some (.int 1), some (.interval ⟨1, 3⟩)⟩),
    (0x0006, ⟨some (.int 1), some (.int 1)⟩),
    (0x0007, ⟨some (.int 1), some (.interval ⟨1, 3⟩)⟩),
    (0x0008, ⟨some (.int 1), some (.interval ⟨1, 3⟩)⟩),
    (0x0009, ⟨some (.int 1), some (.interval ⟨1, 4⟩)⟩),
    (0x000A, ⟨some (.int 1), some (.interval ⟨1, 3⟩)⟩),
    (0x000B, ⟨some (.int 1), some (.interval ⟨1, 4⟩)⟩),
    (0x000C, ⟨some (.int 2), some (.interval ⟨1, 2⟩)⟩),
    (0x000D, ⟨some (.int 2), some (.interval ⟨1, 4⟩)⟩),
    (0x000E, ⟨some (.int 2), some (.interval ⟨1, 3⟩)⟩),
    (0x000F, ⟨some (.int 2), some (.int 1)⟩),
    (0x0010, ⟨some (.int 2), some (.int 1)⟩),
    (0x0011, ⟨some (.int 2), some (.int 1)⟩),
    (0x0012, ⟨some (.int 2), some (.int 1)⟩),
    (0x0013, ⟨some (.int 1), some (.interval ⟨1, 4⟩)⟩),
    (0x0014, ⟨some (.int 2), some (.interval ⟨1, 6⟩)⟩),
    (0x0015, ⟨some (.int 1), some (.interval ⟨1, 6⟩)⟩),
    (0xFFF0, ⟨some (.int 3), some (.int 0)⟩),
    (0xFFF1, ⟨some (.int 3), some (.int 0)⟩),
    (0xFFF2, ⟨some (.int 4), some (.int 0)⟩),
    (0xFF10, ⟨some (.int 1), some (.int 0)⟩),
    (0xFFFF, ⟨some (.int 4), some (.int 0)⟩) ]

/-- The Go expression `rules[typeID]`: indexing a map at an absent key yields the
zero value, here a `schemaType` whose two interface fields are nil. -/
def rulesAt (typeID : Int) : schemaType :=
  match rules.lookup typeID with
  | some t => t
  | none => ⟨none, none⟩

/-! ## Schema validation -/

/-- The function `isValidValueType` of update_schema.go. -/
def isValidValueType (typeID valueType : Int) : Bool :=
  match (rulesAt typeID).valueType with
  | none => false
  | some (.int value) => if valueType ≠ value then false else true
  | some (.interval iv) => if valueType < iv.min ∨ iv.max < valueType then false else true

/-- The function `isValidUnit` of update_schema.go. -/
def isValidUnit (typeID unit : Int) : Bool :=
  match (rulesAt typeID).unit with
  | none => false
  | some (.int value) => if unit ≠ value then false else true
  | some (.interval iv) => if unit < iv.min ∨ iv.max < unit then false else true

/-- The struct-level rule `schemaValidation`: the result lists the errors it
reports through `sl.ReportError`, each named by its field-name argument. -/
def schemaValidation (schema : Schema) : List String :=
  let typeID := schema.TypeID
  if (typeID < 0 ∨ 15 < typeID) ∧ (typeID < 0xfff0 ∨ 0xfff2 < typeID) ∧ typeID ≠ 0xff10 then
    ["Type ID"]
  else if !isValidValueType schema.TypeID schema.ValueType then
    ["Value Type"]
  else if !isValidUnit schema.TypeID schema.Unit then
    ["Unit"]
  else
    []

/-- Modelled from the spec: the declaration of `entities.Schema`, which carries the
field tags read by the validator, is not among the sources.  The spec bounds the
display name by a fixed number of characters; the test case "invalid schema name"
and its name `SchemaNameGreaterThan23Characters` fix that number at 23. -/
def maxNameLength : Nat := 23

/-- Modelled from the spec: the field-level checks that `validate.Struct` runs from
the tags of `entities.Schema`, a declaration that is not among the sources.  The
spec states one such check, the bound on the length of the display name. -/
def fieldValidation (schema : Schema) : List String :=
  if maxNameLength < schema.Name.length then ["Name"] else []

/-- The call `validate.Struct(schema)` made by `isValidSchema`: the field-level
checks followed by the registered struct-level rule.  The returned error is nil
exactly when the list is empty. -/
def validateStruct (schema : Schema) : List String :=
  fieldValidation schema ++ schemaValidation schema

/-- The method `isValidSchema`: the loop returns false at the first entry whose
validation reports an error. -/
def isValidSchema : List Schema → Bool
  | [] => true
  | schema :: rest => if validateStruct schema ≠ [] then false else isValidSchema rest

/-! ## The rule of the specification for one entry -/

/-- A constraint of the rule table admits a code: equality for a scalar, inclusive
membership for an interval. -/
def ruleValue.admits : ruleValue → Int → Bool
  | .int value, x => decide (x = value)
  | .interval iv, x => decide (iv.min ≤ x ∧ x ≤ iv.max)

/-- The validity of a schema entry in the words of the specification: the type
identifier is a key of the rule table, the value representation and the unit each
satisfy the constraint of that key, and the name is within the length bound. -/
def entryMeetsRules (s : Schema) : Bool :=
  match rules.lookup s.TypeID with
  | none => false
  | some t =>
    (match t.valueType with
      | some c => c.admits s.ValueType
      | none => false) &&
    (match t.unit with
      | some c => c.admits s.Unit
      | none => false) &&
    decide (s.Name.length ≤ maxNameLength)

/-! ## Errors -/

/-- A non-nil Go `error` value, as far as the interactors can tell one from
another: its message and the error it wraps. -/
inductive error where
  | new (text : String)
  | errorf (text : String) (wrapped : error)
deriving DecidableEq, Repr

/-- The method `Error()` of an error value: its message. -/
def error.Error : error → String
  | .new text => text
  | .errorf text _ => text

/-- The method `Unwrap()`: the error wrapped through the `%w` verb, if any. -/
def error.Unwrap : error → Option error
  | .new _ => none
  | .errorf _ wrapped => some wrapped

/-- The errors that `errors.Is` walks from an error value: the value itself, then
what it wraps, and so on. -/
def error.chain : error → List error
  | .new text => [.new text]
  | .errorf text wrapped => .errorf text wrapped :: wrapped.chain

/-- An error value carries another one when the other is in its chain of wrapped
errors or the message of the other occurs in its message. -/
def error.carries (x y : error) : Bool :=
  decide (y ∈ x.chain) || decide (List.IsInfix y.Error.data x.Error.data)

/-- Modelled from the spec: the error variables of the package are declared in a
file that is not among the sources.  This one is the Missing-Input condition
"authorization absent"; only its identity is used, its text is descriptive. -/
def ErrAuthNotProvided : error := .new "authorization token not provided"

/-- Modelled from the spec: declared outside the sources; the Missing-Input
condition "device identity absent".  Its text is descriptive. -/
def ErrIDNotProvided : error := .new "thing id not provided"

/-- Modelled from the spec: declared outside the sources; the Missing-Input
condition "schema list absent".  Its text is descriptive. -/
def ErrSchemaNotProvided : error := .new "thing schema not provided"

/-- Modelled from the spec: declared outside the sources; the Missing-Input
condition "sensor selection absent".  Its text is descriptive. -/
def ErrSensorsNotProvided : error := .new "thing sensors not provided"

/-- Modelled from the spec: declared outside the sources; the Schema-Invalid
condition.  The test compares the returned message with that of
`errors.New("invalid schema")`, which fixes the text. -/
def ErrSchemaInvalid : error := .new "invalid schema"

/-- Modelled from the spec: declared outside the sources; the Sensor-Invalid
condition.  Its text is descriptive. -/
def ErrSensorInvalid : error := .new "invalid sensor"

/-! ## Collaborators -/

/-- The registry proxy `i.thingProxy`, by the three methods the interactors call.
`Get` returns the pair of Go results; the thing is read only when the error is nil. -/
structure ThingProxy where
  UpdateSchema : String → String → List Schema → Option error
  Get : String → String → Thing × Option error
  Remove : String → String → Option error

/-- The client-facing publisher `i.clientPublisher`. -/
structure ClientPublisher where
  SendUpdatedSchema : String → Option error → Option error
  SendUnregisteredDevice : String → Option error → Option error
  SendRequestData : String → List Int → Option error

/-- The connector-facing publisher `i.connectorPublisher`. -/
structure ConnectorPublisher where
  SendUpdateSchema : String → List Schema → Option error
  SendUnregisterDevice : String → Option error

/-- The struct `ThingInteractor`, without its logger. -/
structure ThingInteractor where
  clientPublisher : ClientPublisher
  thingProxy : ThingProxy
  connectorPublisher : ConnectorPublisher

/-- One call made to a collaborator, with its arguments. -/
inductive Call where
  | thingProxyUpdateSchema (authorization thingID : String) (schemaList : List Schema)
  | thingProxyGet (authorization thingID : String)
  | thingProxyRemove (authorization id : String)
  | clientSendUpdatedSchema (thingID : String) (err : Option error)
  | clientSendUnregisteredDevice (thingID : String) (err : Option error)
  | clientSendRequestData (thingID : String) (sensorIds : List Int)
  | connectorSendUpdateSchema (thingID : String) (schemaList : List Schema)
  | connectorSendUnregisterDevice (id : String)
deriving DecidableEq, Repr

/-- A call to the connector publisher: `SendUpdateSchema`. -/
def Call.isConnectorSendUpdateSchema : Call → Bool
  | .connectorSendUpdateSchema _ _ => true
  | _ => false

/-- A call to the connector publisher: `SendUnregisterDevice`. -/
def Call.isConnectorSendUnregisterDevice : Call → Bool
  | .connectorSendUnregisterDevice _ => true
  | _ => false

/-- A call to the client publisher: `SendUpdatedSchema`. -/
def Call.isClientSendUpdatedSchema : Call → Bool
  | .clientSendUpdatedSchema _ _ => true
  | _ => false

/-- A call to the client publisher: `SendRequestData`. -/
def Call.isClientSendRequestData : Call → Bool
  | .clientSendRequestData _ _ => true
  | _ => false

/-- A call to the registry proxy. -/
def Call.isThingProxy : Call → Bool
  | .thingProxyUpdateSchema _ _ _ => true
  | .thingProxyGet _ _ => true
  | .thingProxyRemove _ _ => true
  | _ => false

/-! ## Orchestrators -/

/-- The method `notifyClient` of update_schema.go. -/
def notifyClient (i : ThingInteractor) (thingID : String) (err : Option error) :
    Option error × List Call :=
  let sendErr := i.clientPublisher.SendUpdatedSchema thingID err
  let calls := [Call.clientSendUpdatedSchema thingID err]
  match sendErr with
  | some sendErr =>
    match err with
    | some err =>
      (some (.errorf ("error sending response to client: " ++ sendErr.Error ++ ": " ++ err.Error) err),
        calls)
    | none =>
      (some (.errorf ("error sending response to client: " ++ sendErr.Error) sendErr), calls)
  | none => (err, calls)

/-- The method `UpdateSchema` of update_schema.go. -/
def UpdateSchema (i : ThingInteractor) (authorization thingID : String)
    (schemaList : Option (List Schema)) : Option error × List Call :=
  if authorization = "" then (some ErrAuthNotProvided, [])
  else if thingID = "" then (some ErrIDNotProvided, [])
  else
    match schemaList with
    | none => (some ErrSchemaNotProvided, [])
    | some schemaList =>
      if !isValidSchema schemaList then
        let (err, sent) := notifyClient i thingID (some ErrSchemaInvalid)
        (err, sent)
      else
        -- logger.Info: schema validated
        let err := i.thingProxy.UpdateSchema authorization thingID schemaList
        let updated := [Call.thingProxyUpdateSchema authorization thingID schemaList]
        if err ≠ none then
          let (sendErr, sent) := notifyClient i thingID err
          (sendErr, updated ++ sent)
        else
          -- logger.Info: schema updated
          let (err, sent) := notifyClient i thingID err
          if err ≠ none then
            (err, updated ++ sent)
          else
            -- logger.Info: message sent to client
            let err := i.connectorPublisher.SendUpdateSchema thingID schemaList
            let published := [Call.connectorSendUpdateSchema thingID schemaList]
            if err ≠ none then
              (err, updated ++ sent ++ published)
            else
              -- logger.Info: message sent to connector
              (none, updated ++ sent ++ published)

/-- The function `sensorExists` of request_data.go. -/
def sensorExists : List Schema → Int → Bool
  | [], _ => false
  | s :: rest, id => if s.SensorID = id then true else sensorExists rest id

/-- The function `validateSensors` of request_data.go. -/
def validateSensors : List Int → List Schema → Option error
  | [], _ => none
  | id :: rest, schema =>
    if !sensorExists schema id then some ErrSensorInvalid else validateSensors rest schema

/-- The method `RequestData` of request_data.go. -/
def RequestData (i : ThingInteractor) (authorization thingID : String)
    (sensorIds : Option (List Int)) : Option error × List Call :=
  if authorization = "" then (some ErrAuthNotProvided, [])
  else if thingID = "" then (some ErrIDNotProvided, [])
  else
    match sensorIds with
    | none => (some ErrSensorsNotProvided, [])
    | some sensorIds =>
      let (thing, err) := i.thingProxy.Get authorization thingID
      let fetched := [Call.thingProxyGet authorization thingID]
      if err ≠ none then
        -- logger.Error(err)
        (err, fetched)
      else
        match thing.Schema with
        | none =>
          -- logger.Error: thing has no schema yet
          (err, fetched)
        | some schema =>
          let err := validateSensors sensorIds schema
          if err ≠ none then
            -- logger.Error(err)
            (err, fetched)
          else
            let err := i.clientPublisher.SendRequestData thingID sensorIds
            let sent := [Call.clientSendRequestData thingID sensorIds]
            if err ≠ none then
              -- logger.Error(err)
              (err, fetched ++ sent)
            else
              -- logger.Info: data request command successfully sent
              (none, fetched ++ sent)

/-- The method `Unregister` of unregister_thing.go. -/
def Unregister (i : ThingInteractor) (authorization id : String) : Option error × List Call :=
  -- logger.Debug: executing unregister thing use case
  if authorization = "" then (some ErrAuthNotProvided, [])
  else if id = "" then (some ErrIDNotProvided, [])
  else
    let err := i.thingProxy.Remove authorization id
    let removed := [Call.thingProxyRemove authorization id]
    if err ≠ none then
      let sendErr := i.clientPublisher.SendUnregisteredDevice id err
      let sent := [Call.clientSendUnregisteredDevice id err]
      if sendErr ≠ none then
        -- logger.Debug(err)
        (sendErr, removed ++ sent)
      else
        (err, removed ++ sent)
    else
      let _sendErr := i.connectorPublisher.SendUnregisterDevice id
      let published := [Call.connectorSendUnregisterDevice id]
      -- logger.Error(sendErr) when that call failed
      let sendErr := i.clientPublisher.SendUnregisteredDevice id none
      let sent := [Call.clientSendUnregisteredDevice id none]
      if sendErr ≠ none then
        (sendErr, removed ++ published ++ sent)
      else
        (none, removed ++ published ++ sent)

/-! ## Sample inputs

Concrete entries and collaborators at which the statements below are instantiated. -/

/-- The schema entry of the test cases: a switch named LED. -/
def switchEntry : Schema := ⟨0, 3, 0, 0xFFF1, "LED"⟩

/-- The entry of the test case "invalid schema type ID". -/
def unknownTypeEntry : Schema := ⟨0, 3, 0, 79999, "LED"⟩

/-- The entry of the test case "invalid schema unit". -/
def badUnitEntry : Schema := ⟨0, 3, 12345, 0xFFF1, "LED"⟩

/-- An entry whose type identifier 0xFFFF is a key of the rule table and whose
value type and unit are the ones the table gives for that key. -/
def invalidTypeEntry : Schema := ⟨0, 4, 0, 0xFFFF, "RAW"⟩

/-- The error variables of update_schema_test.go. -/
def errThingProxyFailed : error := .new "failed to update the schema on the thing's proxy"

/-- See `errThingProxyFailed`. -/
def errPublisherClientFailed : error := .new "failed to send updated schema response"

/-- See `errThingProxyFailed`. -/
def errPublisherConnectorFailed : error := .new "failed to send update schema to connector"

/-- An interactor whose collaborators answer every call with fixed results: the
proxy with `proxyErr` (and `thing` for `Get`), the client publisher with `clientErr`,
the connector publisher with `connectorErr`. -/
def fixedInteractor (thing : Thing) (proxyErr clientErr connectorErr : Option error) :
    ThingInteractor where
  clientPublisher := ⟨fun _ _ => clientErr, fun _ _ => clientErr, fun _ _ => clientErr⟩
  thingProxy := ⟨fun _ _ _ => proxyErr, fun _ _ => (thing, proxyErr), fun _ _ => proxyErr⟩
  connectorPublisher := ⟨fun _ _ => connectorErr, fun _ => connectorErr⟩

/-- A thing registered without a schema. -/
def thingWithoutSchema : Thing := ⟨"19cf40c23012ce1c", none⟩

/-- A thing whose registered schema is present and has no entry. -/
def thingWithEmptySchema : Thing := ⟨"19cf40c23012ce1c", some []⟩

/-- A thing whose registered schema has the sensor identifiers 0, 1 and 2. -/
def thingWithSensors : Thing :=
  ⟨"19cf40c23012ce1c",
    some [⟨0, 3, 0, 0xFFF1, "LED"⟩, ⟨1, 3, 0, 0xFFF1, "Switch"⟩, ⟨2, 1, 1, 0x0005, "Temp"⟩]⟩

/-- An interactor whose registry `Remove` fails with `removeErr` and whose client
`SendUnregisteredDevice` fails with `sendErr`; every other call succeeds. -/
def failingUnregister (removeErr sendErr : error) : ThingInteractor where
  clientPublisher := ⟨fun _ _ => none, fun _ _ => some sendErr, fun _ _ => none⟩
  thingProxy := ⟨fun _ _ _ => none, fun _ _ => (thingWithoutSchema, none),
    fun _ _ => some removeErr⟩
  connectorPublisher := ⟨fun _ _ => none, fun _ => none⟩

/-! ## Lemmas on the rule table and the validator -/

theorem lookup_some_mem_keys {β : Type} (l : List (Int × β)) (k : Int) (t : β)
    (h : l.lookup k = some t) : k ∈ l.map Prod.fst := by
  induction l with
  | nil => simp [List.lookup] at h
  | cons p rest ih =>
    obtain ⟨k0, v0⟩ := p
    by_cases hk : k = k0
    · subst hk; simp
    · have hb : (k == k0) = false := by simpa using hk
      rw [List.lookup_cons, hb] at h
      simp only [List.map_cons, List.mem_cons]
      exact Or.inr (ih h)

/-- The type identifiers that pass the guard at the head of `schemaValidation`. -/
theorem guard_pass_mem (typeID : Int)
    (h : ¬ ((typeID < 0 ∨ 15 < typeID) ∧ (typeID < 0xfff0 ∨ 0xfff2 < typeID) ∧ typeID ≠ 0xff10)) :
    typeID ∈ ([0, 1, 2, 3, 4, 5, 6, 7, 8, 9, 10, 11, 12, 13, 14, 15,
      0xfff0, 0xfff1, 0xfff2, 0xff10] : List Int) := by
  simp only [List.mem_cons, List.mem_singleton, List.not_mem_nil, or_false]
  omega

theorem validateStruct_iff_of_guard (s : Schema)
    (hmem : s.TypeID ∈ ([0, 1, 2, 3, 4, 5, 6, 7, 8, 9, 10, 11, 12, 13, 14, 15,
      0xfff0, 0xfff1, 0xfff2, 0xff10] : List Int)) :
    validateStruct s = [] ↔ entryMeetsRules s = true := by
  obtain ⟨sid, vt, u, tid, name⟩ := s
  simp only at hmem
  fin_cases hmem <;>
    simp [validateStruct, fieldValidation, schemaValidation, isValidValueType, isValidUnit,
      rulesAt, rules, List.lookup, entryMeetsRules, ruleValue.admits, maxNameLength] <;>
    split_ifs <;> simp <;> omega

theorem validateStruct_nil_guard (s : Schema) (h : validateStruct s = []) :
    ¬ ((s.TypeID < 0 ∨ 15 < s.TypeID) ∧ (s.TypeID < 0xfff0 ∨ 0xfff2 < s.TypeID) ∧
      s.TypeID ≠ 0xff10) := by
  intro hg
  have hs : schemaValidation s = [] := (List.append_eq_nil.mp h).2
  simp [schemaValidation, hg] at hs

theorem entryMeetsRules_key (s : Schema) (h : entryMeetsRules s = true) :
    s.TypeID ∈ rules.map Prod.fst := by
  unfold entryMeetsRules at h
  cases hl : rules.lookup s.TypeID with
  | none => simp [hl] at h
  | some t => exact lookup_some_mem_keys rules s.TypeID t hl

theorem isValidSchema_false_iff (l : List Schema) :
    isValidSchema l = false ↔ ∃ s ∈ l, validateStruct s ≠ [] := by
  induction l with
  | nil => simp [isValidSchema]
  | cons a rest ih =>
    by_cases ha : validateStruct a = []
    · simp [isValidSchema, ha, ih]
    · simp [isValidSchema, ha]

/-! ## Lemmas on `UpdateSchema` -/

theorem UpdateSchema_invalid_eq (i : ThingInteractor) (authorization thingID : String)
    (schemaList : List Schema) (hauth : authorization ≠ "") (hid : thingID ≠ "")
    (hinvalid : isValidSchema schemaList = false) :
    UpdateSchema i authorization thingID (some schemaList) =
      notifyClient i thingID (some ErrSchemaInvalid) := by
  unfold UpdateSchema
  simp [hauth, hid, hinvalid]

theorem UpdateSchema_valid_eq (i : ThingInteractor) (authorization thingID : String)
    (schemaList : List Schema) (hauth : authorization ≠ "") (hid : thingID ≠ "")
    (hvalid : isValidSchema schemaList = true) :
    UpdateSchema i authorization thingID (some schemaList) =
      match i.thingProxy.UpdateSchema authorization thingID schemaList with
      | some e =>
        ((notifyClient i thingID (some e)).1,
          [Call.thingProxyUpdateSchema authorization thingID schemaList,
            Call.clientSendUpdatedSchema thingID (some e)])
      | none =>
        match i.clientPublisher.SendUpdatedSchema thingID none with
        | some _ =>
          ((notifyClient i thingID none).1,
            [Call.thingProxyUpdateSchema authorization thingID schemaList,
              Call.clientSendUpdatedSchema thingID none])
        | none =>
          (i.connectorPublisher.SendUpdateSchema thingID schemaList,
            [Call.thingProxyUpdateSchema authorization thingID schemaList,
              Call.clientSendUpdatedSchema thingID none,
              Call.connectorSendUpdateSchema thingID schemaList]) := by
  unfold UpdateSchema
  simp only [hauth, hid, hvalid, if_false]
  cases hp : i.thingProxy.UpdateSchema authorization thingID schemaList with
  | some e =>
    simp [notifyClient]
    cases i.clientPublisher.SendUpdatedSchema thingID (some e) <;> simp
  | none =>
    cases hc : i.clientPublisher.SendUpdatedSchema thingID none with
    | some s => simp [notifyClient, hc]
    | none =>
      simp [notifyClient, hc]
      cases i.connectorPublisher.SendUpdateSchema thingID schemaList <;> simp

theorem notifyClient_calls (i : ThingInteractor) (thingID : String) (err : Option error) :
    (notifyClient i thingID err).2 = [Call.clientSendUpdatedSchema thingID err] := by
  unfold notifyClient
  cases i.clientPublisher.SendUpdatedSchema thingID err <;> cases err <;> rfl

theorem notifyClient_sent (i : ThingInteractor) (thingID : String) (err : Option error)
    (h : i.clientPublisher.SendUpdatedSchema thingID err = none) :
    (notifyClient i thingID err).1 = err := by
  simp [notifyClient, h]

theorem notifyClient_ne_none_of_failed (i : ThingInteractor) (thingID : String)
    (err : Option error) (h : i.clientPublisher.SendUpdatedSchema thingID err ≠ none) :
    (notifyClient i thingID err).1 ≠ none := by
  unfold notifyClient
  cases hs : i.clientPublisher.SendUpdatedSchema thingID err with
  | none => exact absurd hs h
  | some s => cases err <;> simp

/-! ## Validation of one schema entry -/

/-- C1, as the claim states it, fails: the entry with TypeID 0xFFFF, ValueType 4 and
Unit 0 has a TypeID that is a key of rules, satisfies both constraints of that key
and has a short name, yet the per-entry validation rejects it, because the guard at
the head of schemaValidation lets 0xFFFF through in no branch. -/
theorem validateStruct_rejects_rules_key_0xFFFF :
    entryMeetsRules invalidTypeEntry = true ∧ validateStruct invalidTypeEntry = ["Type ID"] ∧
      ¬ (validateStruct invalidTypeEntry = [] ↔ entryMeetsRules invalidTypeEntry = true) := by
  decide

/-- C1, amended: for every schema entry whose TypeID lies outside 0x0010..0x0015, the
per-entry validation used by isValidSchema accepts the entry if and only if its
TypeID is a key of rules other than 0xFFFF, its ValueType and its Unit satisfy the
constraints of that key (equality for a scalar, inclusive membership for an
interval) and its Name has at most 23 characters.  In particular TypeID 0xFFF1 with
ValueType 3 and Unit 0 is accepted, and the same entry with Unit 5 is rejected. -/
theorem validateStruct_accepts_iff_meets_rules (s : Schema)
    (hrange : ¬ (0x0010 ≤ s.TypeID ∧ s.TypeID ≤ 0x0015)) :
    (validateStruct s = [] ↔ (s.TypeID ≠ 0xFFFF ∧ entryMeetsRules s = true)) ∧
      (∀ (sensorID : Int) (name : String), name.length ≤ maxNameLength →
        validateStruct ⟨sensorID, 3, 0, 0xFFF1, name⟩ = []) ∧
      (∀ (sensorID : Int) (name : String), validateStruct ⟨sensorID, 3, 5, 0xFFF1, name⟩ ≠ []) := by
  refine ⟨⟨fun hv => ?_, fun hm => ?_⟩, ?_, ?_⟩
  · have hg := validateStruct_nil_guard s hv
    refine ⟨by omega, (validateStruct_iff_of_guard s (guard_pass_mem s.TypeID hg)).1 hv⟩
  · have hk := entryMeetsRules_key s hm.2
    have hne := hm.1
    refine (validateStruct_iff_of_guard s (guard_pass_mem s.TypeID ?_)).2 hm.2
    simp only [rules, List.map_cons, List.map_nil, List.mem_cons, List.mem_singleton,
      List.not_mem_nil, or_false] at hk
    omega
  · intro sensorID name hname
    have hlen : ¬ (maxNameLength < name.length) := by omega
    simp [validateStruct, fieldValidation, schemaValidation, isValidValueType, isValidUnit,
      rulesAt, rules, List.lookup, hlen]
  · intro sensorID name
    simp [validateStruct, fieldValidation, schemaValidation, isValidValueType, isValidUnit,
      rulesAt, rules, List.lookup]

/-- C1, amended, at the switch entry of the tests: it lies outside 0x0010..0x0015 and
is accepted. -/
theorem validateStruct_accepts_iff_meets_rules_witness :
    ¬ (0x0010 ≤ switchEntry.TypeID ∧ switchEntry.TypeID ≤ 0x0015) ∧
      (validateStruct switchEntry = [] ↔
        (switchEntry.TypeID ≠ 0xFFFF ∧ entryMeetsRules switchEntry = true)) ∧
      validateStruct switchEntry = [] :=
  ⟨by decide, (validateStruct_accepts_iff_meets_rules switchEntry (by decide)).1, by decide⟩

/-! ## UpdateSchema -/

/-- C2, as the claim states it, fails: with a valid schema list, a succeeding
registry update and a succeeding client notification, a failure of the connector
SendUpdateSchema is what UpdateSchema returns. -/
theorem UpdateSchema_returns_connector_failure :
    isValidSchema [switchEntry] = true ∧
      (fixedInteractor thingWithoutSchema none none (some errPublisherConnectorFailed)).thingProxy.UpdateSchema
        "authorization token" "59cf40c23012ce1c" [switchEntry] = none ∧
      (fixedInteractor thingWithoutSchema none none (some errPublisherConnectorFailed)).clientPublisher.SendUpdatedSchema
        "59cf40c23012ce1c" none = none ∧
      (UpdateSchema (fixedInteractor thingWithoutSchema none none (some errPublisherConnectorFailed))
        "authorization token" "59cf40c23012ce1c" (some [switchEntry])).1 =
        some errPublisherConnectorFailed := by
  decide

/-- C2, amended: for every call of UpdateSchema with non-empty authorization,
non-empty thingID and a valid non-nil schema list, if the registry UpdateSchema
succeeds and the client notification SendUpdatedSchema(thingID, nil) succeeds, then
UpdateSchema returns exactly what the connector SendUpdateSchema returns: nil when it
succeeds, the connector error when it fails. -/
theorem UpdateSchema_returns_connector_result (i : ThingInteractor)
    (authorization thingID : String) (schemaList : List Schema)
    (hauth : authorization ≠ "") (hid : thingID ≠ "")
    (hvalid : isValidSchema schemaList = true)
    (hproxy : i.thingProxy.UpdateSchema authorization thingID schemaList = none)
    (hclient : i.clientPublisher.SendUpdatedSchema thingID none = none) :
    (UpdateSchema i authorization thingID (some schemaList)).1 =
      i.connectorPublisher.SendUpdateSchema thingID schemaList := by
  rw [UpdateSchema_valid_eq i authorization thingID schemaList hauth hid hvalid]
  simp [hproxy, hclient]

/-- C2, amended, at a run in which every collaborator succeeds: the result is the
nil result of the connector. -/
theorem UpdateSchema_returns_connector_result_witness :
    (UpdateSchema (fixedInteractor thingWithoutSchema none none none)
      "authorization token" "19cf40c23012ce1c" (some [switchEntry])).1 =
      (fixedInteractor thingWithoutSchema none none none).connectorPublisher.SendUpdateSchema
        "19cf40c23012ce1c" [switchEntry] :=
  UpdateSchema_returns_connector_result (fixedInteractor thingWithoutSchema none none none)
    "authorization token" "19cf40c23012ce1c" [switchEntry] (by decide) (by decide) (by decide)
    rfl rfl

/-- C3: the code breaks the claim.  For a thing fetched without error whose Schema
is nil, RequestData returns nil, the value of the stale variable err, after the one
call to the registry Get; the claim asks for a non-nil error. -/
theorem RequestData_nil_schema_returns_nil :
    (fixedInteractor thingWithoutSchema none none none).thingProxy.Get
        "authorization token" "19cf40c23012ce1c" = (thingWithoutSchema, none) ∧
      thingWithoutSchema.Schema = none ∧
      RequestData (fixedInteractor thingWithoutSchema none none none)
        "authorization token" "19cf40c23012ce1c" (some [0]) =
        (none, [Call.thingProxyGet "authorization token" "19cf40c23012ce1c"]) := by
  decide

/-- C4: for every call of UpdateSchema with non-empty authorization, non-empty
thingID and a non-nil schema list that fails validation, the only collaborator call
made is one client SendUpdatedSchema(thingID, ErrSchemaInvalid): the registry
UpdateSchema and the connector SendUpdateSchema are never called.  A list of one
entry with TypeID 0xFFF1, ValueType 3 and Unit 12345 fails validation. -/
theorem UpdateSchema_invalid_calls (i : ThingInteractor) (authorization thingID : String)
    (schemaList : List Schema) (hauth : authorization ≠ "") (hid : thingID ≠ "")
    (hinvalid : isValidSchema schemaList = false) :
    (UpdateSchema i authorization thingID (some schemaList)).2 =
        [Call.clientSendUpdatedSchema thingID (some ErrSchemaInvalid)] ∧
      (∀ c ∈ (UpdateSchema i authorization thingID (some schemaList)).2,
        c.isThingProxy = false ∧ c.isConnectorSendUpdateSchema = false) ∧
      (∀ (sensorID : Int) (name : String),
        isValidSchema [⟨sensorID, 3, 12345, 0xFFF1, name⟩] = false) := by
  have hcalls : (UpdateSchema i authorization thingID (some schemaList)).2 =
      [Call.clientSendUpdatedSchema thingID (some ErrSchemaInvalid)] := by
    rw [UpdateSchema_invalid_eq i authorization thingID schemaList hauth hid hinvalid]
    exact notifyClient_calls i thingID (some ErrSchemaInvalid)
  refine ⟨hcalls, ?_, ?_⟩
  · intro c hc
    rw [hcalls] at hc
    simp only [List.mem_singleton] at hc
    subst hc
    exact ⟨rfl, rfl⟩
  · intro sensorID name
    simp [isValidSchema, validateStruct, fieldValidation, schemaValidation, isValidValueType,
      isValidUnit, rulesAt, rules, List.lookup]

/-- C4 at the test case "invalid schema unit", whatever the collaborators answer. -/
theorem UpdateSchema_invalid_calls_witness :
    (UpdateSchema (fixedInteractor thingWithoutSchema none none none)
      "authorization token" "79cf40c23012ce1c" (some [badUnitEntry])).2 =
      [Call.clientSendUpdatedSchema "79cf40c23012ce1c" (some ErrSchemaInvalid)] :=
  (UpdateSchema_invalid_calls (fixedInteractor thingWithoutSchema none none none)
    "authorization token" "79cf40c23012ce1c" [badUnitEntry] (by decide) (by decide)
    (by decide)).1

/-- C5: for every call of UpdateSchema with non-empty authorization, non-empty
thingID and a non-nil schema list containing an entry that the per-entry validation
rejects, when the client publisher send succeeds the returned error is exactly
ErrSchemaInvalid, whose message is "invalid schema".  Entries with the unknown TypeID
79999, with Unit 12345 for TypeID 0xFFF1, or with a Name longer than 23 characters
are rejected. -/
theorem UpdateSchema_invalid_returns_ErrSchemaInvalid (i : ThingInteractor)
    (authorization thingID : String) (schemaList : List Schema)
    (hauth : authorization ≠ "") (hid : thingID ≠ "")
    (hentry : ∃ s ∈ schemaList, validateStruct s ≠ [])
    (hsend : i.clientPublisher.SendUpdatedSchema thingID (some ErrSchemaInvalid) = none) :
    (UpdateSchema i authorization thingID (some schemaList)).1 = some ErrSchemaInvalid ∧
      ErrSchemaInvalid.Error = "invalid schema" ∧
      (∀ (sensorID valueType unit : Int) (name : String),
        validateStruct ⟨sensorID, valueType, unit, 79999, name⟩ ≠ []) ∧
      (∀ (sensorID valueType : Int) (name : String),
        validateStruct ⟨sensorID, valueType, 12345, 0xFFF1, name⟩ ≠ []) ∧
      (∀ s : Schema, 23 < s.Name.length → validateStruct s ≠ []) := by
  refine ⟨?_, rfl, ?_, ?_, ?_⟩
  · rw [UpdateSchema_invalid_eq i authorization thingID schemaList hauth hid
      ((isValidSchema_false_iff schemaList).2 hentry)]
    exact notifyClient_sent i thingID (some ErrSchemaInvalid) hsend
  · intro sensorID valueType unit name
    simp [validateStruct, schemaValidation]
  · intro sensorID valueType name
    simp [validateStruct, schemaValidation, isValidValueType, isValidUnit,
      rulesAt, rules, List.lookup]
    intro _
    split_ifs <;> simp
  · intro s hs
    simp [validateStruct, fieldValidation, maxNameLength, hs]

/-- C5 at the test case "invalid schema type ID" with a client publisher that
succeeds. -/
theorem UpdateSchema_invalid_returns_ErrSchemaInvalid_witness :
    (UpdateSchema (fixedInteractor thingWithoutSchema none none none)
      "authorization token" "69cf40c23012ce1c" (some [unknownTypeEntry])).1 =
      some ErrSchemaInvalid :=
  (UpdateSchema_invalid_returns_ErrSchemaInvalid (fixedInteractor thingWithoutSchema none none none)
    "authorization token" "69cf40c23012ce1c" [unknownTypeEntry] (by decide) (by decide)
    ⟨unknownTypeEntry, by decide, by decide⟩ rfl).1

/-- C6: for every call of UpdateSchema with non-empty authorization, non-empty
thingID and a valid non-nil schema list, if every collaborator call succeeds then
UpdateSchema returns nil and the collaborator calls are exactly the registry
UpdateSchema(authorization, thingID, schemaList), then one client
SendUpdatedSchema(thingID, nil), then one connector SendUpdateSchema(thingID,
schemaList), the list being passed unchanged.  A list of one entry with TypeID
0xFFF1, ValueType 3, Unit 0 and a name within the bound is valid. -/
theorem UpdateSchema_success_calls (i : ThingInteractor) (authorization thingID : String)
    (schemaList : List Schema) (hauth : authorization ≠ "") (hid : thingID ≠ "")
    (hvalid : isValidSchema schemaList = true)
    (hproxy : i.thingProxy.UpdateSchema authorization thingID schemaList = none)
    (hclient : i.clientPublisher.SendUpdatedSchema thingID none = none)
    (hconnector : i.connectorPublisher.SendUpdateSchema thingID schemaList = none) :
    UpdateSchema i authorization thingID (some schemaList) =
        (none,
          [Call.thingProxyUpdateSchema authorization thingID schemaList,
            Call.clientSendUpdatedSchema thingID none,
            Call.connectorSendUpdateSchema thingID schemaList]) ∧
      (∀ (sensorID : Int) (name : String), name.length ≤ maxNameLength →
        isValidSchema [⟨sensorID, 3, 0, 0xFFF1, name⟩] = true) := by
  refine ⟨?_, ?_⟩
  · rw [UpdateSchema_valid_eq i authorization thingID schemaList hauth hid hvalid]
    simp [hproxy, hclient, hconnector]
  · intro sensorID name hname
    have hlen : ¬ (maxNameLength < name.length) := by omega
    simp [isValidSchema, validateStruct, fieldValidation, schemaValidation, isValidValueType,
      isValidUnit, rulesAt, rules, List.lookup, hlen]

/-- C6 at the test case "schema successfully updated on the thing proxy". -/
theorem UpdateSchema_success_calls_witness :
    UpdateSchema (fixedInteractor thingWithoutSchema none none none)
      "authorization token" "19cf40c23012ce1c" (some [switchEntry]) =
      (none,
        [Call.thingProxyUpdateSchema "authorization token" "19cf40c23012ce1c" [switchEntry],
          Call.clientSendUpdatedSchema "19cf40c23012ce1c" none,
          Call.connectorSendUpdateSchema "19cf40c23012ce1c" [switchEntry]]) :=
  (UpdateSchema_success_calls (fixedInteractor thingWithoutSchema none none none)
    "authorization token" "19cf40c23012ce1c" [switchEntry] (by decide) (by decide) (by decide)
    rfl rfl rfl).1

/-- C7: for every call of UpdateSchema that passes the input checks and the schema
validation, if the registry UpdateSchema fails with error e then the collaborator
calls are the registry call followed by exactly one client SendUpdatedSchema(thingID,
e), the connector is never called, and, when that notification succeeds, the error
returned to the caller is exactly e. -/
theorem UpdateSchema_registry_failure (i : ThingInteractor) (authorization thingID : String)
    (schemaList : List Schema) (e : error) (hauth : authorization ≠ "") (hid : thingID ≠ "")
    (hvalid : isValidSchema schemaList = true)
    (hproxy : i.thingProxy.UpdateSchema authorization thingID schemaList = some e) :
    (UpdateSchema i authorization thingID (some schemaList)).2 =
        [Call.thingProxyUpdateSchema authorization thingID schemaList,
          Call.clientSendUpdatedSchema thingID (some e)] ∧
      (∀ c ∈ (UpdateSchema i authorization thingID (some schemaList)).2,
        c.isConnectorSendUpdateSchema = false) ∧
      (i.clientPublisher.SendUpdatedSchema thingID (some e) = none →
        (UpdateSchema i authorization thingID (some schemaList)).1 = some e) := by
  have heq := UpdateSchema_valid_eq i authorization thingID schemaList hauth hid hvalid
  rw [hproxy] at heq
  simp only at heq
  refine ⟨by rw [heq], ?_, ?_⟩
  · intro c hc
    rw [heq] at hc
    simp only [List.mem_cons, List.mem_singleton, List.not_mem_nil, or_false] at hc
    rcases hc with rfl | rfl <;> rfl
  · intro hsend
    rw [heq]
    exact notifyClient_sent i thingID (some e) hsend

/-- C7 at the test case "failed to update the schema on the thing proxy", with a
client publisher that succeeds: the registry error comes back unchanged. -/
theorem UpdateSchema_registry_failure_witness :
    (UpdateSchema (fixedInteractor thingWithoutSchema (some errThingProxyFailed) none none)
      "authorization token" "29cf40c23012ce1c" (some [switchEntry])).1 =
      some errThingProxyFailed :=
  (UpdateSchema_registry_failure
    (fixedInteractor thingWithoutSchema (some errThingProxyFailed) none none)
    "authorization token" "29cf40c23012ce1c" [switchEntry] errThingProxyFailed
    (by decide) (by decide) (by decide) rfl).2.2 rfl

/-- Either no call of a run of UpdateSchema goes to the connector, or the run is the
full sequence registry, client, connector after two successes. -/
theorem UpdateSchema_calls_cases (i : ThingInteractor) (authorization thingID : String)
    (schemaList : Option (List Schema)) :
    (∀ c ∈ (UpdateSchema i authorization thingID schemaList).2,
        c.isConnectorSendUpdateSchema = false) ∨
      ∃ l, schemaList = some l ∧
        i.thingProxy.UpdateSchema authorization thingID l = none ∧
        i.clientPublisher.SendUpdatedSchema thingID none = none ∧
        (UpdateSchema i authorization thingID schemaList).2 =
          [Call.thingProxyUpdateSchema authorization thingID l,
            Call.clientSendUpdatedSchema thingID none,
            Call.connectorSendUpdateSchema thingID l] := by
  by_cases hauth : authorization = ""
  · left; simp [UpdateSchema, hauth]
  by_cases hid : thingID = ""
  · left; simp [UpdateSchema, hauth, hid]
  cases schemaList with
  | none => left; simp [UpdateSchema, hauth, hid]
  | some l =>
    cases hvalid : isValidSchema l with
    | false =>
      left
      rw [UpdateSchema_invalid_eq i authorization thingID l hauth hid hvalid,
        notifyClient_calls]
      simp [Call.isConnectorSendUpdateSchema]
    | true =>
      rw [UpdateSchema_valid_eq i authorization thingID l hauth hid hvalid]
      cases hp : i.thingProxy.UpdateSchema authorization thingID l with
      | some e => left; simp [Call.isConnectorSendUpdateSchema]
      | none =>
        cases hc : i.clientPublisher.SendUpdatedSchema thingID none with
        | some s => left; simp [Call.isConnectorSendUpdateSchema]
        | none => right; exact ⟨l, rfl, hp, rfl, rfl⟩

theorem countP_eq_zero_of_forall_false {α : Type} (p : α → Bool) (l : List α)
    (h : ∀ c ∈ l, p c = false) : l.countP p = 0 := by
  rw [List.countP_eq_zero]
  intro c hc
  simp [h c hc]

/-- C8: in every run of UpdateSchema the connector SendUpdateSchema is called at most
once, and when it is called the registry UpdateSchema has succeeded, the client
notification SendUpdatedSchema(thingID, nil) has succeeded, and both calls precede
it.  In particular, when the registry update succeeds but the client notification
fails, UpdateSchema returns a non-nil error and the connector is never notified. -/
theorem UpdateSchema_connector_only_after_success (i : ThingInteractor)
    (authorization thingID : String) (schemaList : Option (List Schema)) :
    (UpdateSchema i authorization thingID schemaList).2.countP
        Call.isConnectorSendUpdateSchema ≤ 1 ∧
      ((∃ c ∈ (UpdateSchema i authorization thingID schemaList).2,
          c.isConnectorSendUpdateSchema = true) →
        ∃ l, schemaList = some l ∧
          i.thingProxy.UpdateSchema authorization thingID l = none ∧
          i.clientPublisher.SendUpdatedSchema thingID none = none ∧
          (UpdateSchema i authorization thingID schemaList).2 =
            [Call.thingProxyUpdateSchema authorization thingID l,
              Call.clientSendUpdatedSchema thingID none,
              Call.connectorSendUpdateSchema thingID l]) ∧
      (∀ l, schemaList = some l → authorization ≠ "" → thingID ≠ "" →
        isValidSchema l = true →
        i.thingProxy.UpdateSchema authorization thingID l = none →
        i.clientPublisher.SendUpdatedSchema thingID none ≠ none →
        (UpdateSchema i authorization thingID schemaList).1 ≠ none ∧
          ∀ c ∈ (UpdateSchema i authorization thingID schemaList).2,
            c.isConnectorSendUpdateSchema = false) := by
  refine ⟨?_, ?_, ?_⟩
  · rcases UpdateSchema_calls_cases i authorization thingID schemaList with h | ⟨l, _, _, _, h⟩
    · rw [countP_eq_zero_of_forall_false _ _ h]; exact Nat.zero_le 1
    · rw [h]; simp [List.countP_cons, Call.isConnectorSendUpdateSchema]
  · rintro ⟨c, hc, hcc⟩
    rcases UpdateSchema_calls_cases i authorization thingID schemaList with h | h
    · rw [h c hc] at hcc; exact absurd hcc (by decide)
    · exact h
  · intro l hl hauth hid hvalid hproxy hclient
    subst hl
    rw [UpdateSchema_valid_eq i authorization thingID l hauth hid hvalid, hproxy]
    cases hc : i.clientPublisher.SendUpdatedSchema thingID none with
    | none => exact absurd hc hclient
    | some s =>
      refine ⟨notifyClient_ne_none_of_failed i thingID none hclient, ?_⟩
      simp [Call.isConnectorSendUpdateSchema]

/-- C8 at the test case "failed to send updated schema response": the registry
succeeds, the client notification fails, the result is an error and no call goes to
the connector. -/
theorem UpdateSchema_connector_only_after_success_witness :
    (UpdateSchema (fixedInteractor thingWithoutSchema none (some errPublisherClientFailed) none)
        "authorization token" "49cf40c23012ce1c" (some [switchEntry])).1 ≠ none ∧
      ∀ c ∈ (UpdateSchema (fixedInteractor thingWithoutSchema none (some errPublisherClientFailed) none)
        "authorization token" "49cf40c23012ce1c" (some [switchEntry])).2,
        c.isConnectorSendUpdateSchema = false :=
  (UpdateSchema_connector_only_after_success
    (fixedInteractor thingWithoutSchema none (some errPublisherClientFailed) none)
    "authorization token" "49cf40c23012ce1c" (some [switchEntry])).2.2 [switchEntry] rfl
    (by decide) (by decide) (by decide) rfl (by decide)

/-! ## notifyClient -/

/-- C9: for every thingID and every optional original error err, notifyClient makes
exactly one call, SendUpdatedSchema(thingID, err), and returns: err itself if the
send succeeded; if the send failed and err is nil, a non-nil error that wraps the
send error and whose message names only the send error; if the send failed and err
is non-nil, one non-nil error that wraps err and whose message contains the message
of the send error.  Consequently notifyClient returns nil if and only if the send
succeeded and err is nil. -/
theorem notifyClient_result (i : ThingInteractor) (thingID : String) (err : Option error) :
    (notifyClient i thingID err).2 = [Call.clientSendUpdatedSchema thingID err] ∧
      (i.clientPublisher.SendUpdatedSchema thingID err = none →
        (notifyClient i thingID err).1 = err) ∧
      (∀ sendErr, i.clientPublisher.SendUpdatedSchema thingID none = some sendErr →
        ∃ r, (notifyClient i thingID none).1 = some r ∧ r.Unwrap = some sendErr ∧
          r.Error = "error sending response to client: " ++ sendErr.Error) ∧
      (∀ e sendErr, i.clientPublisher.SendUpdatedSchema thingID (some e) = some sendErr →
        ∃ r, (notifyClient i thingID (some e)).1 = some r ∧ r.Unwrap = some e ∧
          r.Error = "error sending response to client: " ++ sendErr.Error ++ ": " ++ e.Error ∧
          List.IsInfix sendErr.Error.data r.Error.data) ∧
      ((notifyClient i thingID err).1 = none ↔
        (i.clientPublisher.SendUpdatedSchema thingID err = none ∧ err = none)) := by
  refine ⟨notifyClient_calls i thingID err, notifyClient_sent i thingID err, ?_, ?_, ?_⟩
  · intro sendErr hsend
    exact ⟨.errorf ("error sending response to client: " ++ sendErr.Error) sendErr,
      by simp [notifyClient, hsend], rfl, rfl⟩
  · intro e sendErr hsend
    refine ⟨.errorf ("error sending response to client: " ++ sendErr.Error ++ ": " ++ e.Error) e,
      by simp [notifyClient, hsend], rfl, rfl, ?_⟩
    refine ⟨"error sending response to client: ".data, (": " ++ e.Error).data, ?_⟩
    simp [error.Error, String.data_append, List.append_assoc]
  · constructor
    · intro h
      cases hs : i.clientPublisher.SendUpdatedSchema thingID err with
      | some s => exact absurd h (notifyClient_ne_none_of_failed i thingID err (by simp [hs]))
      | none => exact ⟨rfl, by rw [← notifyClient_sent i thingID err hs]; exact h⟩
    · rintro ⟨hs, he⟩
      rw [notifyClient_sent i thingID err hs]; exact he

/-- C9 at a failed send that reports a registry failure: the result wraps the
registry error and its message contains the message of the send error. -/
theorem notifyClient_result_witness :
    ∃ r, (notifyClient (fixedInteractor thingWithoutSchema none (some errPublisherClientFailed) none)
        "49cf40c23012ce1c" (some errThingProxyFailed)).1 = some r ∧
      r.Unwrap = some errThingProxyFailed ∧
      r.Error = "error sending response to client: " ++ errPublisherClientFailed.Error ++ ": " ++
        errThingProxyFailed.Error ∧
      List.IsInfix errPublisherClientFailed.Error.data r.Error.data :=
  (notifyClient_result (fixedInteractor thingWithoutSchema none (some errPublisherClientFailed) none)
    "49cf40c23012ce1c" (some errThingProxyFailed)).2.2.2.1 errThingProxyFailed
    errPublisherClientFailed rfl

/-! ## Unregister -/

/-- C10: for every call of Unregister with non-empty authorization and id in which
the registry Remove fails with error e, the collaborator calls are the registry call
followed by exactly one client SendUnregisteredDevice(id, e), the connector
SendUnregisterDevice is never called, and the returned error is e if that
notification succeeded and is exactly the send error of the notification, which
masks e, if it failed. -/
theorem Unregister_remove_failure (i : ThingInteractor) (authorization id : String)
    (e : error) (hauth : authorization ≠ "") (hid : id ≠ "")
    (hremove : i.thingProxy.Remove authorization id = some e) :
    (Unregister i authorization id).2 =
        [Call.thingProxyRemove authorization id,
          Call.clientSendUnregisteredDevice id (some e)] ∧
      (∀ c ∈ (Unregister i authorization id).2, c.isConnectorSendUnregisterDevice = false) ∧
      (i.clientPublisher.SendUnregisteredDevice id (some e) = none →
        (Unregister i authorization id).1 = some e) ∧
      (∀ sendErr, i.clientPublisher.SendUnregisteredDevice id (some e) = some sendErr →
        (Unregister i authorization id).1 = some sendErr) := by
  have hcalls : (Unregister i authorization id).2 =
      [Call.thingProxyRemove authorization id,
        Call.clientSendUnregisteredDevice id (some e)] := by
    unfold Unregister
    simp only [hauth, hid, hremove, if_false]
    cases i.clientPublisher.SendUnregisteredDevice id (some e) <;> simp
  refine ⟨hcalls, ?_, ?_, ?_⟩
  · intro c hc
    rw [hcalls] at hc
    simp only [List.mem_cons, List.mem_singleton, List.not_mem_nil, or_false] at hc
    rcases hc with rfl | rfl <;> rfl
  · intro hsend
    unfold Unregister
    simp [hauth, hid, hremove, hsend]
  · intro sendErr hsend
    unfold Unregister
    simp [hauth, hid, hremove, hsend]

/-- C10 at a removal failure whose notification fails too: the send error is what
comes back. -/
theorem Unregister_remove_failure_witness :
    (Unregister
      ⟨⟨fun _ _ => none, fun _ _ => some errPublisherClientFailed, fun _ _ => none⟩,
        ⟨fun _ _ _ => none, fun _ _ => (thingWithoutSchema, none),
          fun _ _ => some errThingProxyFailed⟩,
        ⟨fun _ _ => none, fun _ => none⟩⟩
      "authorization token" "19cf40c23012ce1c").1 = some errPublisherClientFailed :=
  (Unregister_remove_failure
    ⟨⟨fun _ _ => none, fun _ _ => some errPublisherClientFailed, fun _ _ => none⟩,
      ⟨fun _ _ _ => none, fun _ _ => (thingWithoutSchema, none),
        fun _ _ => some errThingProxyFailed⟩,
      ⟨fun _ _ => none, fun _ => none⟩⟩
    "authorization token" "19cf40c23012ce1c" errThingProxyFailed (by decide) (by decide)
    rfl).2.2.2 errPublisherClientFailed rfl

/-! ## Unregister: the remaining paths -/

/-- C11, as the claim states it, fails: when the registry Remove fails with e and the
client notification fails with s, Unregister returns s itself; s wraps nothing and
its message does not contain the message of e, so it does not carry e. -/
theorem Unregister_returns_send_error_alone :
    (failingUnregister errThingProxyFailed errPublisherClientFailed).thingProxy.Remove
        "authorization token" "19cf40c23012ce1c" = some errThingProxyFailed ∧
      (failingUnregister errThingProxyFailed errPublisherClientFailed).clientPublisher.SendUnregisteredDevice
        "19cf40c23012ce1c" (some errThingProxyFailed) = some errPublisherClientFailed ∧
      (Unregister (failingUnregister errThingProxyFailed errPublisherClientFailed)
        "authorization token" "19cf40c23012ce1c").1 = some errPublisherClientFailed ∧
      errPublisherClientFailed.carries errThingProxyFailed = false := by
  decide

/-- C11, amended: for every call of Unregister with non-empty authorization and id in
which the registry Remove fails with error e and the client notification
SendUnregisteredDevice(id, e) also fails with error s, the error returned by
Unregister is exactly s: the notification error alone, nothing being combined with
it. -/
theorem Unregister_double_failure_returns_send_error (i : ThingInteractor)
    (authorization id : String) (e s : error) (hauth : authorization ≠ "") (hid : id ≠ "")
    (hremove : i.thingProxy.Remove authorization id = some e)
    (hsend : i.clientPublisher.SendUnregisteredDevice id (some e) = some s) :
    (Unregister i authorization id).1 = some s := by
  unfold Unregister
  simp [hauth, hid, hremove, hsend]

/-- C11, amended, at a removal failure followed by a notification failure. -/
theorem Unregister_double_failure_returns_send_error_witness :
    (Unregister (failingUnregister errThingProxyFailed errPublisherConnectorFailed)
      "authorization token" "29cf40c23012ce1c").1 = some errPublisherConnectorFailed :=
  Unregister_double_failure_returns_send_error
    (failingUnregister errThingProxyFailed errPublisherConnectorFailed)
    "authorization token" "29cf40c23012ce1c" errThingProxyFailed errPublisherConnectorFailed
    (by decide) (by decide) rfl rfl

/-- C12: for every call of Unregister with non-empty authorization and id in which
the registry Remove succeeds, the collaborator calls are the registry call, then
exactly one connector SendUnregisterDevice(id), then exactly one client
SendUnregisteredDevice(id, nil), whatever the connector call returned; and the value
returned by Unregister is the result of that client notification, whatever the
connector call returned. -/
theorem Unregister_remove_success (i : ThingInteractor) (authorization id : String)
    (hauth : authorization ≠ "") (hid : id ≠ "")
    (hremove : i.thingProxy.Remove authorization id = none) :
    Unregister i authorization id =
      (i.clientPublisher.SendUnregisteredDevice id none,
        [Call.thingProxyRemove authorization id,
          Call.connectorSendUnregisterDevice id,
          Call.clientSendUnregisteredDevice id none]) := by
  unfold Unregister
  simp only [hauth, hid, hremove, if_false]
  cases i.clientPublisher.SendUnregisteredDevice id none <;> simp

/-- C12 at a run whose connector call fails and whose client notification succeeds:
the result is nil. -/
theorem Unregister_remove_success_witness :
    Unregister (fixedInteractor thingWithoutSchema none none (some errPublisherConnectorFailed))
      "authorization token" "19cf40c23012ce1c" =
      (none,
        [Call.thingProxyRemove "authorization token" "19cf40c23012ce1c",
          Call.connectorSendUnregisterDevice "19cf40c23012ce1c",
          Call.clientSendUnregisteredDevice "19cf40c23012ce1c" none]) :=
  Unregister_remove_success
    (fixedInteractor thingWithoutSchema none none (some errPublisherConnectorFailed))
    "authorization token" "19cf40c23012ce1c" (by decide) (by decide) rfl

/-! ## Input checks -/

/-- C13: for each of UpdateSchema, RequestData and Unregister, an empty authorization
gives ErrAuthNotProvided; otherwise an empty thing id gives ErrIDNotProvided;
otherwise a nil schema list gives ErrSchemaNotProvided (UpdateSchema) and a nil
sensor selection gives ErrSensorsNotProvided (RequestData); and in each of these
cases no call is made to the registry proxy or to either publisher. -/
theorem input_checks_return_without_calls (i : ThingInteractor) :
    (∀ thingID schemaList, UpdateSchema i "" thingID schemaList = (some ErrAuthNotProvided, [])) ∧
      (∀ thingID sensorIds, RequestData i "" thingID sensorIds = (some ErrAuthNotProvided, [])) ∧
      (∀ id, Unregister i "" id = (some ErrAuthNotProvided, [])) ∧
      (∀ authorization schemaList, authorization ≠ "" →
        UpdateSchema i authorization "" schemaList = (some ErrIDNotProvided, [])) ∧
      (∀ authorization sensorIds, authorization ≠ "" →
        RequestData i authorization "" sensorIds = (some ErrIDNotProvided, [])) ∧
      (∀ authorization, authorization ≠ "" →
        Unregister i authorization "" = (some ErrIDNotProvided, [])) ∧
      (∀ authorization thingID, authorization ≠ "" → thingID ≠ "" →
        UpdateSchema i authorization thingID none = (some ErrSchemaNotProvided, [])) ∧
      (∀ authorization thingID, authorization ≠ "" → thingID ≠ "" →
        RequestData i authorization thingID none = (some ErrSensorsNotProvided, [])) := by
  refine ⟨?_, ?_, ?_, ?_, ?_, ?_, ?_, ?_⟩
  · intro thingID schemaList; simp [UpdateSchema]
  · intro thingID sensorIds; simp [RequestData]
  · intro id; simp [Unregister]
  · intro authorization schemaList hauth; simp [UpdateSchema, hauth]
  · intro authorization sensorIds hauth; simp [RequestData, hauth]
  · intro authorization hauth; simp [Unregister, hauth]
  · intro authorization thingID hauth hid; simp [UpdateSchema, hauth, hid]
  · intro authorization thingID hauth hid; simp [RequestData, hauth, hid]

/-- C13 at a nil sensor selection with authorization and thing id present. -/
theorem input_checks_return_without_calls_witness :
    RequestData (fixedInteractor thingWithSensors none none none)
      "authorization token" "19cf40c23012ce1c" none = (some ErrSensorsNotProvided, []) :=
  (input_checks_return_without_calls (fixedInteractor thingWithSensors none none none)).2.2.2.2.2.2.2
    "authorization token" "19cf40c23012ce1c" (by decide) (by decide)

/-! ## RequestData -/

theorem sensorExists_iff (schema : List Schema) (id : Int) :
    sensorExists schema id = true ↔ ∃ s ∈ schema, s.SensorID = id := by
  induction schema with
  | nil => simp [sensorExists]
  | cons a rest ih =>
    by_cases ha : a.SensorID = id
    · simp [sensorExists, ha]
    · simp [sensorExists, ha, ih]

theorem validateSensors_none_iff (ids : List Int) (schema : List Schema) :
    validateSensors ids schema = none ↔ ∀ id ∈ ids, ∃ s ∈ schema, s.SensorID = id := by
  induction ids with
  | nil => simp [validateSensors]
  | cons a rest ih =>
    cases hx : sensorExists schema a with
    | true =>
      have hv : validateSensors (a :: rest) schema = validateSensors rest schema := by
        simp [validateSensors, hx]
      rw [hv, ih]
      constructor
      · intro h id hid
        rcases List.mem_cons.1 hid with rfl | hr
        · exact (sensorExists_iff schema id).1 hx
        · exact h id hr
      · intro h id hid
        exact h id (List.mem_cons_of_mem a hid)
    | false =>
      have hv : validateSensors (a :: rest) schema = some ErrSensorInvalid := by
        simp [validateSensors, hx]
      rw [hv]
      constructor
      · intro h
        exact absurd h (by simp)
      · intro h
        have hex := (sensorExists_iff schema a).2 (h a (List.mem_cons_self a rest))
        rw [hex] at hx
        exact absurd hx (by decide)

theorem validateSensors_cases (ids : List Int) (schema : List Schema) :
    validateSensors ids schema = none ∨ validateSensors ids schema = some ErrSensorInvalid := by
  induction ids with
  | nil => left; rfl
  | cons a rest ih =>
    cases hx : sensorExists schema a <;> simp [validateSensors, hx, ih]

/-- C14: for every sensor selection ids and every schema list, validateSensors(ids,
schema) returns nil if and only if every element of ids equals the SensorID of some
entry of schema, and otherwise returns ErrSensorInvalid.  A schema with the SensorIDs
0, 1, 2 and the selection 1, 5 yield ErrSensorInvalid, and the empty selection is
valid against every schema. -/
theorem validateSensors_spec (ids : List Int) (schema : List Schema) :
    (validateSensors ids schema = none ↔ ∀ id ∈ ids, ∃ s ∈ schema, s.SensorID = id) ∧
      (¬ (∀ id ∈ ids, ∃ s ∈ schema, s.SensorID = id) →
        validateSensors ids schema = some ErrSensorInvalid) ∧
      (schema.map Schema.SensorID = [0, 1, 2] →
        validateSensors [1, 5] schema = some ErrSensorInvalid) ∧
      validateSensors [] schema = none := by
  refine ⟨validateSensors_none_iff ids schema, ?_, ?_, rfl⟩
  · intro h
    rcases validateSensors_cases ids schema with hn | he
    · exact absurd ((validateSensors_none_iff ids schema).1 hn) h
    · exact he
  · intro hmap
    rcases validateSensors_cases [1, 5] schema with hn | he
    · have h5 := (validateSensors_none_iff [1, 5] schema).1 hn 5 (by simp)
      obtain ⟨s, hs, hid⟩ := h5
      have hmem : s.SensorID ∈ schema.map Schema.SensorID := List.mem_map_of_mem _ hs
      rw [hmap, hid] at hmem
      exact absurd hmem (by decide)
    · exact he

/-- C14 at the schema with the sensor identifiers 0, 1, 2 and the selection 1, 5. -/
theorem validateSensors_spec_witness :
    validateSensors [1, 5]
      [⟨0, 3, 0, 0xFFF1, "LED"⟩, ⟨1, 3, 0, 0xFFF1, "Switch"⟩, ⟨2, 1, 1, 0x0005, "Temp"⟩] =
      some ErrSensorInvalid :=
  (validateSensors_spec [1, 5]
    [⟨0, 3, 0, 0xFFF1, "LED"⟩, ⟨1, 3, 0, 0xFFF1, "Switch"⟩, ⟨2, 1, 1, 0x0005, "Temp"⟩]).2.2.1 rfl

theorem RequestData_checked_eq (i : ThingInteractor) (authorization thingID : String)
    (sensorIds : List Int) (hauth : authorization ≠ "") (hid : thingID ≠ "") :
    RequestData i authorization thingID (some sensorIds) =
      match (i.thingProxy.Get authorization thingID).2 with
      | some e => (some e, [Call.thingProxyGet authorization thingID])
      | none =>
        match (i.thingProxy.Get authorization thingID).1.Schema with
        | none => (none, [Call.thingProxyGet authorization thingID])
        | some schema =>
          match validateSensors sensorIds schema with
          | some e => (some e, [Call.thingProxyGet authorization thingID])
          | none =>
            (i.clientPublisher.SendRequestData thingID sensorIds,
              [Call.thingProxyGet authorization thingID,
                Call.clientSendRequestData thingID sensorIds]) := by
  unfold RequestData
  simp only [hauth, hid, if_false]
  cases hg : (i.thingProxy.Get authorization thingID).2 with
  | some e => simp
  | none =>
    cases hs : (i.thingProxy.Get authorization thingID).1.Schema with
    | none => simp
    | some schema =>
      cases hv : validateSensors sensorIds schema with
      | some e => simp [hv]
      | none =>
        cases i.clientPublisher.SendRequestData thingID sensorIds <;> simp [hv]

/-- What holds of every run of RequestData that passes the input checks:
SendRequestData is called exactly when the Get succeeded, the fetched Schema is
non-nil and every selected id exists in it; it is then the second and last call,
made with the thing id and the selection of the caller, and its result is the result
of RequestData; a Get error comes back unchanged and an unmatched id gives
ErrSensorInvalid, both without any call after the Get. -/
theorem RequestData_send_iff (i : ThingInteractor) (authorization thingID : String)
    (sensorIds : List Int) (hauth : authorization ≠ "") (hid : thingID ≠ "") :
    ((∃ c ∈ (RequestData i authorization thingID (some sensorIds)).2,
        c.isClientSendRequestData = true) ↔
      ((i.thingProxy.Get authorization thingID).2 = none ∧
        ∃ schema, (i.thingProxy.Get authorization thingID).1.Schema = some schema ∧
          ∀ id ∈ sensorIds, ∃ s ∈ schema, s.SensorID = id)) ∧
      (((i.thingProxy.Get authorization thingID).2 = none ∧
        ∃ schema, (i.thingProxy.Get authorization thingID).1.Schema = some schema ∧
          ∀ id ∈ sensorIds, ∃ s ∈ schema, s.SensorID = id) →
        RequestData i authorization thingID (some sensorIds) =
          (i.clientPublisher.SendRequestData thingID sensorIds,
            [Call.thingProxyGet authorization thingID,
              Call.clientSendRequestData thingID sensorIds])) ∧
      (∀ e, (i.thingProxy.Get authorization thingID).2 = some e →
        RequestData i authorization thingID (some sensorIds) =
          (some e, [Call.thingProxyGet authorization thingID])) ∧
      (∀ schema, (i.thingProxy.Get authorization thingID).2 = none →
        (i.thingProxy.Get authorization thingID).1.Schema = some schema →
        ¬ (∀ id ∈ sensorIds, ∃ s ∈ schema, s.SensorID = id) →
        RequestData i authorization thingID (some sensorIds) =
          (some ErrSensorInvalid, [Call.thingProxyGet authorization thingID])) := by
  have heq := RequestData_checked_eq i authorization thingID sensorIds hauth hid
  cases hg : (i.thingProxy.Get authorization thingID).2 with
  | some e =>
    rw [hg] at heq
    simp only at heq
    rw [heq]
    simp [Call.isClientSendRequestData]
  | none =>
    rw [hg] at heq
    simp only at heq
    cases hs : (i.thingProxy.Get authorization thingID).1.Schema with
    | none =>
      rw [hs] at heq
      simp only at heq
      rw [heq]
      simp [Call.isClientSendRequestData]
    | some schema =>
      rw [hs] at heq
      simp only at heq
      cases hv : validateSensors sensorIds schema with
      | some e =>
        rw [hv] at heq
        simp only at heq
        have hno : ¬ (∀ id ∈ sensorIds, ∃ s ∈ schema, s.SensorID = id) := by
          intro h
          rw [(validateSensors_none_iff sensorIds schema).2 h] at hv
          exact absurd hv (by simp)
        have he : e = ErrSensorInvalid := by
          rcases validateSensors_cases sensorIds schema with h | h
          · rw [h] at hv; exact absurd hv (by simp)
          · rw [h] at hv; exact (Option.some.inj hv).symm
        rw [heq, he]
        simp [Call.isClientSendRequestData, hno]
      | none =>
        rw [hv] at heq
        simp only at heq
        have hall := (validateSensors_none_iff sensorIds schema).1 hv
        rw [heq]
        simp [Call.isClientSendRequestData]
        exact hall

/-- C15: the code breaks the claim at one step, by the defect of C3.  With a thing
fetched without error whose Schema is nil, the schema step fails, no later step
runs, and yet RequestData returns nil where the claim has the error of the failing
step returned. -/
theorem RequestData_failed_schema_step_returns_nil :
    RequestData (fixedInteractor thingWithoutSchema none none none)
        "authorization token" "39cf40c23012ce1c" (some [1, 5]) =
        (none, [Call.thingProxyGet "authorization token" "39cf40c23012ce1c"]) ∧
      ∀ c ∈ (RequestData (fixedInteractor thingWithoutSchema none none none)
        "authorization token" "39cf40c23012ce1c" (some [1, 5])).2,
        c.isClientSendRequestData = false := by
  decide

/-- C16, as the claim states it, fails: with a fetched Schema that is present and
empty and with the empty selection, RequestData calls SendRequestData and returns its
nil result. -/
theorem RequestData_empty_schema_empty_selection_proceeds :
    (fixedInteractor thingWithEmptySchema none none none).thingProxy.Get
        "authorization token" "19cf40c23012ce1c" = (thingWithEmptySchema, none) ∧
      thingWithEmptySchema.Schema = some [] ∧
      RequestData (fixedInteractor thingWithEmptySchema none none none)
        "authorization token" "19cf40c23012ce1c" (some []) =
        (none,
          [Call.thingProxyGet "authorization token" "19cf40c23012ce1c",
            Call.clientSendRequestData "19cf40c23012ce1c" []]) := by
  decide

/-- C16, amended: for every call of RequestData that passes the input checks, if the
registry Get succeeds and returns a thing whose Schema is present but empty, then for
every non-empty selection RequestData returns ErrSensorInvalid and SendRequestData is
not called, and for the empty selection the operation proceeds: SendRequestData is
called once with the thing id and the empty selection, and RequestData returns its
result. -/
theorem RequestData_empty_schema (i : ThingInteractor) (authorization thingID : String)
    (sensorIds : List Int) (hauth : authorization ≠ "") (hid : thingID ≠ "")
    (hget : (i.thingProxy.Get authorization thingID).2 = none)
    (hschema : (i.thingProxy.Get authorization thingID).1.Schema = some []) :
    (sensorIds ≠ [] →
        RequestData i authorization thingID (some sensorIds) =
          (some ErrSensorInvalid, [Call.thingProxyGet authorization thingID])) ∧
      (sensorIds = [] →
        RequestData i authorization thingID (some sensorIds) =
          (i.clientPublisher.SendRequestData thingID [],
            [Call.thingProxyGet authorization thingID,
              Call.clientSendRequestData thingID []])) := by
  have heq := RequestData_checked_eq i authorization thingID sensorIds hauth hid
  rw [hget] at heq
  simp only at heq
  rw [hschema] at heq
  simp only at heq
  constructor
  · intro hne
    cases sensorIds with
    | nil => exact absurd rfl hne
    | cons a rest =>
      rw [heq]
      simp [validateSensors, sensorExists]
  · intro hnil
    subst hnil
    rw [heq]
    simp [validateSensors]

/-- C16, amended, at an empty registered schema and the selection 1, 5. -/
theorem RequestData_empty_schema_witness :
    RequestData (fixedInteractor thingWithEmptySchema none none none)
      "authorization token" "19cf40c23012ce1c" (some [1, 5]) =
      (some ErrSensorInvalid, [Call.thingProxyGet "authorization token" "19cf40c23012ce1c"]) :=
  (RequestData_empty_schema (fixedInteractor thingWithEmptySchema none none none)
    "authorization token" "19cf40c23012ce1c" [1, 5] (by decide) (by decide) rfl rfl).1
    (by decide)

/-! ## The validator and the rule table -/

theorem isValidSchema_true_iff (l : List Schema) :
    isValidSchema l = true ↔ ∀ s ∈ l, validateStruct s = [] := by
  induction l with
  | nil => simp [isValidSchema]
  | cons a rest ih =>
    by_cases ha : validateStruct a = []
    · simp [isValidSchema, ha, ih]
    · simp [isValidSchema, ha]

/-- C17: for every schema list, isValidSchema returns true if and only if every entry
of the list passes the per-entry validation.  In particular the empty non-nil list
is valid, so UpdateSchema with a non-nil empty schema list, a non-empty authorization
and a non-empty thingID goes on to call the registry UpdateSchema, which is its first
collaborator call. -/
theorem isValidSchema_iff_all_entries (schemaList : List Schema) :
    (isValidSchema schemaList = true ↔ ∀ s ∈ schemaList, validateStruct s = []) ∧
      isValidSchema [] = true ∧
      (∀ (i : ThingInteractor) (authorization thingID : String),
        authorization ≠ "" → thingID ≠ "" →
        (UpdateSchema i authorization thingID (some [])).2.head? =
          some (Call.thingProxyUpdateSchema authorization thingID [])) := by
  refine ⟨isValidSchema_true_iff schemaList, rfl, ?_⟩
  intro i authorization thingID hauth hid
  rw [UpdateSchema_valid_eq i authorization thingID [] hauth hid rfl]
  cases i.thingProxy.UpdateSchema authorization thingID [] with
  | some e => rfl
  | none =>
    cases i.clientPublisher.SendUpdatedSchema thingID none <;> rfl

/-- C17 at the empty schema list with collaborators that succeed. -/
theorem isValidSchema_iff_all_entries_witness :
    (UpdateSchema (fixedInteractor thingWithoutSchema none none none)
      "authorization token" "19cf40c23012ce1c" (some [])).2.head? =
      some (Call.thingProxyUpdateSchema "authorization token" "19cf40c23012ce1c" []) :=
  (isValidSchema_iff_all_entries []).2.2 (fixedInteractor thingWithoutSchema none none none)
    "authorization token" "19cf40c23012ce1c" (by decide) (by decide)

theorem lookup_none_of_not_mem_keys {β : Type} (l : List (Int × β)) (k : Int)
    (h : k ∉ l.map Prod.fst) : l.lookup k = none := by
  cases hl : l.lookup k with
  | none => rfl
  | some t => exact absurd (lookup_some_mem_keys l k t hl) h

theorem mem_keys_iff_lookup_isSome {β : Type} (l : List (Int × β)) (k : Int) :
    k ∈ l.map Prod.fst ↔ (l.lookup k).isSome = true := by
  constructor
  · intro h
    induction l with
    | nil => simp at h
    | cons p rest ih =>
      obtain ⟨k0, v0⟩ := p
      by_cases hk : k = k0
      · subst hk; simp [List.lookup_cons]
      · have hb : (k == k0) = false := by simpa using hk
        rw [List.lookup_cons, hb]
        simp only [List.map_cons, List.mem_cons] at h
        rcases h with h | h
        · exact absurd h hk
        · exact ih h
  · intro h
    cases hl : l.lookup k with
    | none => rw [hl] at h; simp at h
    | some t => exact lookup_some_mem_keys l k t hl

theorem exists_lookup_some_iff {β : Type} (t : β) (P : β → Prop) :
    (∃ t0, some t = some t0 ∧ P t0) ↔ P t := by
  constructor
  · rintro ⟨t0, ht, h⟩
    cases ht
    exact h
  · intro h
    exact ⟨t, rfl, h⟩

theorem isValidValueType_iff (typeID valueType : Int) :
    isValidValueType typeID valueType = true ↔
      ∃ t, rules.lookup typeID = some t ∧
        ∃ c, t.valueType = some c ∧ c.admits valueType = true := by
  unfold isValidValueType rulesAt
  cases hl : rules.lookup typeID with
  | none => simp
  | some t =>
    rw [exists_lookup_some_iff t (fun t0 => ∃ c, t0.valueType = some c ∧ c.admits valueType = true)]
    cases hv : t.valueType with
    | none => simp
    | some c =>
      cases c with
      | int value => simp [ruleValue.admits]
      | interval iv => simp [ruleValue.admits]

theorem isValidUnit_iff (typeID unit : Int) :
    isValidUnit typeID unit = true ↔
      ∃ t, rules.lookup typeID = some t ∧
        ∃ c, t.unit = some c ∧ c.admits unit = true := by
  unfold isValidUnit rulesAt
  cases hl : rules.lookup typeID with
  | none => simp
  | some t =>
    rw [exists_lookup_some_iff t (fun t0 => ∃ c, t0.unit = some c ∧ c.admits unit = true)]
    cases hu : t.unit with
    | none => simp
    | some c =>
      cases c with
      | int value => simp [ruleValue.admits]
      | interval iv => simp [ruleValue.admits]

/-- C18: for all integers typeID, valueType and unit, isValidValueType(typeID,
valueType) is true if and only if typeID is a key of rules and valueType satisfies
the value-type constraint of that key (equal to it when scalar, within min and max
when an interval), and isValidUnit(typeID, unit) is true if and only if typeID is a
key of rules and unit satisfies the unit constraint of that key in the same sense.
For a typeID absent from rules both return false for every valueType and unit.
Every key of rules has both constraints set. -/
theorem isValidValueType_isValidUnit_spec (typeID valueType unit : Int) :
    (isValidValueType typeID valueType = true ↔
        ∃ t, rules.lookup typeID = some t ∧
          ∃ c, t.valueType = some c ∧ c.admits valueType = true) ∧
      (isValidUnit typeID unit = true ↔
        ∃ t, rules.lookup typeID = some t ∧
          ∃ c, t.unit = some c ∧ c.admits unit = true) ∧
      (typeID ∈ rules.map Prod.fst ↔ (rules.lookup typeID).isSome = true) ∧
      (typeID ∉ rules.map Prod.fst →
        isValidValueType typeID valueType = false ∧ isValidUnit typeID unit = false) ∧
      (∀ p ∈ rules, p.2.valueType ≠ none ∧ p.2.unit ≠ none) := by
  refine ⟨isValidValueType_iff typeID valueType, isValidUnit_iff typeID unit,
    mem_keys_iff_lookup_isSome rules typeID, ?_, by decide⟩
  intro hkey
  have hl := lookup_none_of_not_mem_keys rules typeID hkey
  simp [isValidValueType, isValidUnit, rulesAt, hl]

/-- C18 at a type identifier that is not a key of rules. -/
theorem isValidValueType_isValidUnit_spec_witness :
    isValidValueType 79999 3 = false ∧ isValidUnit 79999 0 = false :=
  (isValidValueType_isValidUnit_spec 79999 3 0).2.2.2.1 (by decide)

theorem schemaValidation_of_guard (s : Schema)
    (hg : (s.TypeID < 0 ∨ 15 < s.TypeID) ∧ (s.TypeID < 0xfff0 ∨ 0xfff2 < s.TypeID) ∧
      s.TypeID ≠ 0xff10) :
    schemaValidation s = ["Type ID"] := by
  unfold schemaValidation
  exact if_pos hg

theorem schemaValidation_of_not_guard (s : Schema)
    (hg : ¬ ((s.TypeID < 0 ∨ 15 < s.TypeID) ∧ (s.TypeID < 0xfff0 ∨ 0xfff2 < s.TypeID) ∧
      s.TypeID ≠ 0xff10)) :
    schemaValidation s =
      if !isValidValueType s.TypeID s.ValueType then ["Value Type"]
      else if !isValidUnit s.TypeID s.Unit then ["Unit"]
      else [] := by
  unfold schemaValidation
  exact if_neg hg

/-- C19: the guard at the start of schemaValidation lets through exactly the TypeIDs
in 0..15, 0xFFF0..0xFFF2 and 0xFF10, and each of them is a key of rules.  Hence every
schema entry that schemaValidation accepts has a TypeID that is a key of rules, a
ValueType that the value-type constraint of that key admits and a Unit that its unit
constraint admits. -/
theorem schemaValidation_guard_sound (s : Schema) :
    (schemaValidation s ≠ ["Type ID"] ↔
        ((0 ≤ s.TypeID ∧ s.TypeID ≤ 15) ∨ (0xFFF0 ≤ s.TypeID ∧ s.TypeID ≤ 0xFFF2) ∨
          s.TypeID = 0xFF10)) ∧
      (((0 ≤ s.TypeID ∧ s.TypeID ≤ 15) ∨ (0xFFF0 ≤ s.TypeID ∧ s.TypeID ≤ 0xFFF2) ∨
          s.TypeID = 0xFF10) → s.TypeID ∈ rules.map Prod.fst) ∧
      (schemaValidation s = [] →
        s.TypeID ∈ rules.map Prod.fst ∧
          ∃ t, rules.lookup s.TypeID = some t ∧
            (∃ c, t.valueType = some c ∧ c.admits s.ValueType = true) ∧
            (∃ c, t.unit = some c ∧ c.admits s.Unit = true)) := by
  refine ⟨?_, ?_, ?_⟩
  · by_cases hg : (s.TypeID < 0 ∨ 15 < s.TypeID) ∧ (s.TypeID < 0xfff0 ∨ 0xfff2 < s.TypeID) ∧
        s.TypeID ≠ 0xff10
    · have hsv : schemaValidation s = ["Type ID"] := schemaValidation_of_guard s hg
      constructor
      · intro h
        exact absurd hsv h
      · intro h
        omega
    · have hin : (0 ≤ s.TypeID ∧ s.TypeID ≤ 15) ∨ (0xFFF0 ≤ s.TypeID ∧ s.TypeID ≤ 0xFFF2) ∨
          s.TypeID = 0xFF10 := by omega
      refine ⟨fun _ => hin, fun _ => ?_⟩
      rw [schemaValidation_of_not_guard s hg]
      split_ifs <;> simp
  · intro hin
    have hmem := guard_pass_mem s.TypeID (by omega)
    simp only [List.mem_cons, List.mem_singleton, List.not_mem_nil, or_false] at hmem
    simp only [rules, List.map_cons, List.map_nil, List.mem_cons, List.mem_singleton,
      List.not_mem_nil, or_false]
    omega
  · intro hv
    have hg : ¬ ((s.TypeID < 0 ∨ 15 < s.TypeID) ∧ (s.TypeID < 0xfff0 ∨ 0xfff2 < s.TypeID) ∧
        s.TypeID ≠ 0xff10) := by
      intro hg
      rw [schemaValidation_of_guard s hg] at hv
      exact absurd hv (by simp)
    rw [schemaValidation_of_not_guard s hg] at hv
    have hvt : isValidValueType s.TypeID s.ValueType = true := by
      cases h : isValidValueType s.TypeID s.ValueType with
      | true => rfl
      | false => simp [h] at hv
    have hu : isValidUnit s.TypeID s.Unit = true := by
      cases h : isValidUnit s.TypeID s.Unit with
      | true => rfl
      | false => simp [hvt, h] at hv
    obtain ⟨t, ht, hc⟩ := (isValidValueType_iff s.TypeID s.ValueType).1 hvt
    obtain ⟨t0, ht0, hc0⟩ := (isValidUnit_iff s.TypeID s.Unit).1 hu
    have htt : t0 = t := by
      rw [ht] at ht0
      exact (Option.some.inj ht0).symm
    subst htt
    exact ⟨lookup_some_mem_keys rules s.TypeID t0 ht, t0, ht, hc, hc0⟩

/-- C19 at the switch entry of the tests, which schemaValidation accepts. -/
theorem schemaValidation_guard_sound_witness :
    switchEntry.TypeID ∈ rules.map Prod.fst ∧
      ∃ t, rules.lookup switchEntry.TypeID = some t ∧
        (∃ c, t.valueType = some c ∧ c.admits switchEntry.ValueType = true) ∧
        (∃ c, t.unit = some c ∧ c.admits switchEntry.Unit = true) :=
  (schemaValidation_guard_sound switchEntry).2.2 (by decide)

/-! ## The client notification of UpdateSchema -/

/-- C20: in every run of UpdateSchema that passes the three input checks, the client
publisher SendUpdatedSchema is called exactly once, and the error it carries is
ErrSchemaInvalid if validation failed, the error of the registry if the registry
update failed, and nil if the registry update succeeded. -/
theorem UpdateSchema_notifies_client_once (i : ThingInteractor)
    (authorization thingID : String) (schemaList : List Schema)
    (hauth : authorization ≠ "") (hid : thingID ≠ "") :
    (UpdateSchema i authorization thingID (some schemaList)).2.countP
        Call.isClientSendUpdatedSchema = 1 ∧
      (isValidSchema schemaList = false →
        (UpdateSchema i authorization thingID (some schemaList)).2.filter
          Call.isClientSendUpdatedSchema =
          [Call.clientSendUpdatedSchema thingID (some ErrSchemaInvalid)]) ∧
      (∀ e, isValidSchema schemaList = true →
        i.thingProxy.UpdateSchema authorization thingID schemaList = some e →
        (UpdateSchema i authorization thingID (some schemaList)).2.filter
          Call.isClientSendUpdatedSchema =
          [Call.clientSendUpdatedSchema thingID (some e)]) ∧
      (isValidSchema schemaList = true →
        i.thingProxy.UpdateSchema authorization thingID schemaList = none →
        (UpdateSchema i authorization thingID (some schemaList)).2.filter
          Call.isClientSendUpdatedSchema =
          [Call.clientSendUpdatedSchema thingID none]) := by
  cases hvalid : isValidSchema schemaList with
  | false =>
    rw [UpdateSchema_invalid_eq i authorization thingID schemaList hauth hid hvalid,
      notifyClient_calls]
    simp [Call.isClientSendUpdatedSchema]
  | true =>
    rw [UpdateSchema_valid_eq i authorization thingID schemaList hauth hid hvalid]
    cases hp : i.thingProxy.UpdateSchema authorization thingID schemaList with
    | some e => simp [Call.isClientSendUpdatedSchema]
    | none =>
      cases hc : i.clientPublisher.SendUpdatedSchema thingID none <;>
        simp [Call.isClientSendUpdatedSchema]

/-- C20 at the test case "failed to update the schema on the thing proxy": the one
client notification carries the error of the registry. -/
theorem UpdateSchema_notifies_client_once_witness :
    (UpdateSchema (fixedInteractor thingWithoutSchema (some errThingProxyFailed) none none)
      "authorization token" "29cf40c23012ce1c" (some [switchEntry])).2.filter
      Call.isClientSendUpdatedSchema =
      [Call.clientSendUpdatedSchema "29cf40c23012ce1c" (some errThingProxyFailed)] :=
  (UpdateSchema_notifies_client_once
    (fixedInteractor thingWithoutSchema (some errThingProxyFailed) none none)
    "authorization token" "29cf40c23012ce1c" [switchEntry] (by decide) (by decide)).2.2.1
    errThingProxyFailed (by decide) rfl

end Babeltower
